import Mathlib

/-!
Shallow embedding of `src/api/src/controllers/admin.controller.ts` (the Vita
admin controller): two-factor admin authentication and the moderation
workflows (approve/reject mentor, delete user, toggle top-mentor, replace the
site banner), together with theorems checking the natural-language
specification against the code.

The MongoDB collections behind the Mongoose models (`AdminModel`, `UserModel`,
`MentorModel`, `BannerModel`) are modelled as lists of records inside a
`Store`; each Express handler becomes a pure function from its request data
and the store to its observable outcome: the response (or an exception
escaping the handler), the final store, and the emails whose delivery was
attempted.  Outcomes of external collaborators — the email transport and
fallible database write operations — are passed in as explicit parameters, so
a handler is a function of the environment as well as of its input.
-/

namespace Vita

/-- A mentor record (`MentorModel`), with the fields the controller uses. -/
structure Mentor where
  id : String
  email : String
  approved : Bool
  top_mentor : Bool
  deriving DecidableEq, Repr

/-- A user record (`UserModel`); `mentor_information` is the id of the linked
mentor-profile document. -/
structure User where
  id : String
  email : String
  mentor_information : String
  deriving DecidableEq, Repr

/-- A banner record (`BannerModel`); the controller passes the request body
through without looking inside it, so the payload is a single value. -/
structure Banner where
  payload : String
  deriving DecidableEq, Repr

/-- Pending one-time-passcode state stored on an admin account: the code value
(stored hashed in the database; hashing is an external collaborator and is
dropped here), its expiry instant, and whether it has been consumed. -/
structure OtpState where
  value : String
  expiry : Nat
  consumed : Bool
  deriving DecidableEq, Repr

/-- An admin account record (`AdminModel`): identity, password hash, and the
pending OTP state if any. -/
structure Admin where
  name : String
  email : String
  password : String
  image_link : String
  otp : Option OtpState
  deriving DecidableEq, Repr

/-- The persistent store: the four collections the controller touches. -/
structure Store where
  admins : List Admin
  users : List User
  mentors : List Mentor
  banners : List Banner
  deriving DecidableEq, Repr

/-- A rendered email template, `makeTemplate(name, data)`. -/
structure Template where
  name : String
  data : List (String × String)
  deriving DecidableEq, Repr

/-- An email handed to `sendEmail(to, subject, template)`; `recipient` is the
`to` argument. -/
structure Email where
  recipient : String
  subject : String
  template : Template
  deriving DecidableEq, Repr

/-- The user shape appearing in the `adminAuth` response: `req.user`, or the
placeholder literal with empty `name` and `image_link`. -/
structure PublicUser where
  name : String
  image_link : String
  deriving DecidableEq, Repr

/-- Modelled from the spec: the JSON serialization of an admin account
document returned by `verifyOtp` — the `AdminModel` schema with its `toJSON`
transform is not part of the controller source; per the spec the endpoint
"Returns the account profile (minus secrets)", so the profile keeps the
public fields and has no field for the password hash or the OTP state. -/
structure AdminProfile where
  name : String
  email : String
  image_link : String
  deriving DecidableEq, Repr

/-- Serialize an admin account to its public profile. -/
def adminToJSON (a : Admin) : AdminProfile :=
  ⟨a.name, a.email, a.image_link⟩

/-- Request cookies (`req.cookies`) as key/value pairs. -/
abbrev Cookies := List (String × String)

/-- JSON response bodies produced by the controller, one constructor per
object shape appearing in the source. -/
inductive Body where
  | error (error : String)
  | msg (message : String)
  | successMsg (message : String)
  | failMsg (message : String)
  | loginOk (message emailId : String)
  | verified (message : String) (user : AdminProfile)
  | auth (isLoggedIn : Bool) (message : String) (user : PublicUser)
      (cookies : Option Cookies)
  | bannerOk (banner : Banner)
  deriving DecidableEq, Repr

/-- An HTTP response: status code and JSON body. -/
structure Resp where
  status : Nat
  body : Body
  deriving DecidableEq, Repr

/-- Outcome of a handler body: a response, or an exception escaping the
handler (a rejected `await` outside any `try` block). -/
inductive HResult where
  | ok (resp : Resp)
  | thrown
  deriving DecidableEq, Repr

/-- The status code of a handler outcome, when it produced a response. -/
def HResult.statusOf : HResult → Option Nat
  | .ok r => some r.status
  | .thrown => none

/-- A handler's full observable outcome: its result, the final store, and the
emails whose delivery was attempted (one per `sendEmail` call), in order. -/
structure HOut where
  result : HResult
  store : Store
  attempts : List Email
  deriving DecidableEq, Repr

/-- A hexadecimal character, as accepted in a MongoDB ObjectId string. -/
def isHexChar (c : Char) : Bool :=
  c.isDigit || (Char.ofNat 97 ≤ c && c ≤ Char.ofNat 102)
    || (Char.ofNat 65 ≤ c && c ≤ Char.ofNat 70)

/-- `mongoose.isValidObjectId`: a string casts to an ObjectId when it is 24
hexadecimal characters, or any 12-character string (12 raw bytes). -/
def isValidObjectId (s : String) : Bool :=
  (s.length == 24 && s.toList.all isHexChar) || s.length == 12

/-- The guard `id && isValidObjectId(id)` applied to an identifier taken from
the request: the id is absent (`undefined`), falsy (the empty string), or not
a valid ObjectId, and then the database lookup is never issued. -/
def idOk : Option String → Bool
  | none => false
  | some s => (!(s == "")) && isValidObjectId s

/-- `MentorModel.findById(id)`. -/
def findMentor (s : Store) (id : String) : Option Mentor :=
  s.mentors.find? (fun m => m.id == id)

/-- `UserModel.findById(id)`. -/
def findUser (s : Store) (id : String) : Option User :=
  s.users.find? (fun u => u.id == id)

/-- `AdminModel.findOne({email})` (email has a unique index). -/
def findAdmin (s : Store) (email : String) : Option Admin :=
  s.admins.find? (fun a => a.email == email)

/-- `doc.save()` on a mentor document: write the document back over the
record carrying its `_id` (a unique key, so at most one record changes). -/
def saveMentor (l : List Mentor) (m : Mentor) : List Mentor :=
  l.map (fun x => if x.id == m.id then m else x)

/-- `doc.save()` on an admin document, keyed by the unique email. -/
def saveAdmin (l : List Admin) (a : Admin) : List Admin :=
  l.map (fun x => if x.email == a.email then a else x)

/-- Remove the first element satisfying `p`, as `Model.deleteOne(filter)` and
`doc.delete()` remove a single matching document. -/
def removeFirstBy {α : Type} (p : α → Bool) : List α → List α
  | [] => []
  | x :: xs => if p x then xs else x :: removeFirstBy p xs

/-- Modelled from the spec: `AdminModel`'s `comparePassword` method is not
under the controller source; per the spec, login "fails with
InvalidCredentials if absent or password mismatch", so the check matches the
candidate against the stored credential (`password` stands for the hash of
the correct password, the hashing itself being external). -/
def comparePassword (a : Admin) (candidate : String) : Bool :=
  a.password == candidate

/-- Expiry window of a freshly issued OTP, in milliseconds (the spec says "a
short window, e.g. minutes"). -/
def otpWindow : Nat := 5 * 60 * 1000

/-- Modelled from the spec: `AdminModel.generateOTP` — the OTP Engine
"generates a cryptographically random passcode of fixed length, stores it
hashed with an expiry, invalidates any previously pending OTP".  The
generated code `fresh` and the clock `now` are parameters. -/
def generateOTP (a : Admin) (fresh : String) (now : Nat) : Admin :=
  { a with otp := some { value := fresh, expiry := now + otpWindow, consumed := false } }

/-- Modelled from the spec: `AdminModel.verifyOTP` — "fails closed: returns
false if no pending OTP, if expired, if already consumed, or if the candidate
does not match the stored hash; on success marks the OTP consumed (single
use) and returns true".  Returns the verdict with the updated account. -/
def verifyOTP (a : Admin) (candidate : String) (now : Nat) : Bool × Admin :=
  match a.otp with
  | none => (false, a)
  | some st =>
    if st.consumed then (false, a)
    else if st.expiry ≤ now then (false, a)
    else if st.value == candidate then
      (true, { a with otp := some { st with consumed := true } })
    else (false, a)

/-- Modelled from the spec: `AdminModel.issueToken` — the Session Issuer
mints a bearer token that "unambiguously identifies the account"; its content
is irrelevant to the controller, only the cookie holding it is specified. -/
def issueToken (a : Admin) : String :=
  "token:" ++ a.email

/-- A `res.cookie` call: name, value, httpOnly flag and max age in
milliseconds (Express `maxAge` is in milliseconds). -/
structure Cookie where
  name : String
  value : String
  httpOnly : Bool
  maxAgeMs : Nat
  deriving DecidableEq, Repr

/-- `adminAuth` (GET /auth): reflect the request-attached principal
`req.user` and always answer 200; the handler issues no database operation,
so the store is returned unchanged. -/
def adminAuth (principal : Option PublicUser) (cookies : Cookies) (s : Store) :
    Resp × Store :=
  match principal with
  | none => (⟨200, .auth false "User is not logged in." ⟨"", ""⟩ none⟩, s)
  | some u => (⟨200, .auth true "User is logged in" u (some cookies)⟩, s)

/-- `adminLogin` (POST /login): look up the account by email, check the
password — both failures answer the same 401 — then issue an OTP and email
it.  `fresh` and `now` feed the OTP generation; `notifier` is the email
transport outcome, `some emailId` on success and `none` when `sendEmail`
rejects (that `await` is not inside a `try`, so a rejection escapes). -/
def adminLogin (email password fresh : String) (now : Nat)
    (notifier : Option String) (s : Store) : HOut :=
  match findAdmin s email with
  | none => ⟨.ok ⟨401, .error "Invalid email or password"⟩, s, []⟩
  | some admin =>
    if !(comparePassword admin password) then
      ⟨.ok ⟨401, .error "Invalid email or password"⟩, s, []⟩
    else
      let admin2 := generateOTP admin fresh now
      let s2 := { s with admins := saveAdmin s.admins admin2 }
      let mail : Email := ⟨admin.email, "Vita Admin Login", ⟨"adminOtp.hbs", [("otp", fresh)]⟩⟩
      match notifier with
      | some emailId => ⟨.ok ⟨200, .loginOk "Email sent" emailId⟩, s2, [mail]⟩
      | none => ⟨.thrown, s2, [mail]⟩

/-- Outcome of `adminVerifyOtp`: result, cookie set if any, final store. -/
structure VOut where
  result : HResult
  cookie : Option Cookie
  store : Store
  deriving DecidableEq, Repr

/-- `adminVerifyOtp` (POST /verify-otp): look up the account, verify the OTP
(consuming it on success), set the `adminToken` cookie — http-only, `maxAge:
1000 * 60 * 60 * 24 * 1` milliseconds — and answer 200 with the serialized
account. -/
def adminVerifyOtp (email otp : String) (now : Nat) (s : Store) : VOut :=
  match findAdmin s email with
  | none => ⟨.ok ⟨401, .error "Invalid email or password"⟩, none, s⟩
  | some admin =>
    match verifyOTP admin otp now with
    | (false, _) => ⟨.ok ⟨401, .error "Invalid OTP"⟩, none, s⟩
    | (true, admin2) =>
      let s2 := { s with admins := saveAdmin s.admins admin2 }
      ⟨.ok ⟨200, .verified "OTP verified" (adminToJSON admin2)⟩,
        some ⟨"adminToken", issueToken admin2, true, 1000 * 60 * 60 * 24 * 1⟩, s2⟩

/-- `approveMentor` (POST /mentor/approve): resolve the mentor behind the
guarded id, set `approved = true` and save, then send the acceptance email
inside a `try`; a delivery failure is answered 500 without undoing the save. -/
def approveMentor (id : Option String) (notifier : Option String) (s : Store) : HOut :=
  match (if idOk id then findMentor s (id.getD "") else none) with
  | none => ⟨.ok ⟨401, .error "Mentor Not Found"⟩, s, []⟩
  | some m =>
    let m2 := { m with approved := true }
    let s2 := { s with mentors := saveMentor s.mentors m2 }
    let mail : Email := ⟨m2.email, "Vita Application Approved!", ⟨"acceptMentor.hbs", []⟩⟩
    match notifier with
    | some _ => ⟨.ok ⟨200, .successMsg "Mentor Approved!"⟩, s2, [mail]⟩
    | none => ⟨.ok ⟨500, .msg "Email didn\x27t sent"⟩, s2, [mail]⟩

/-- `changeTopMentorStatus` (POST /mentor/top): resolve the mentor behind the
guarded id, negate `top_mentor` and save, then send the notification email
inside a `try`; a delivery failure is answered 500 without undoing the save. -/
def changeTopMentorStatus (id : Option String) (notifier : Option String) (s : Store) : HOut :=
  match (if idOk id then findMentor s (id.getD "") else none) with
  | none => ⟨.ok ⟨401, .error "Mentor Not Found"⟩, s, []⟩
  | some m =>
    let m2 := { m with top_mentor := !m.top_mentor }
    let s2 := { s with mentors := saveMentor s.mentors m2 }
    let mail : Email := ⟨m2.email, "Vita top mentor",
      ⟨"topMentor.hbs", [("top_mentor", toString m2.top_mentor)]⟩⟩
    match notifier with
    | some _ => ⟨.ok ⟨200, .successMsg "Mentor Approved!"⟩, s2, [mail]⟩
    | none => ⟨.ok ⟨500, .msg "Email didn\x27t sent"⟩, s2, [mail]⟩

/-- `rejectMentor` (query id): resolve the user behind the guarded id, run
`user.delete()` and `MentorModel.deleteOne({_id: user.mentor_information})`
under `Promise.all` — both operations run, a failed one leaves its target in
place, and the rejection escapes the handler since that `await` is outside
the `try` — then send the rejection email inside the `try`.  `userDelOk` and
`mentorDelOk` are the two delete outcomes, `notifier` the transport outcome. -/
def rejectMentor (id : Option String) (userDelOk mentorDelOk : Bool)
    (notifier : Option String) (s : Store) : HOut :=
  match (if idOk id then findUser s (id.getD "") else none) with
  | none => ⟨.ok ⟨404, .msg "User didn\x27t found!"⟩, s, []⟩
  | some u =>
    let s2 := { s with
      users := if userDelOk then removeFirstBy (fun x => x.id == u.id) s.users else s.users,
      mentors := if mentorDelOk then
        removeFirstBy (fun x => x.id == u.mentor_information) s.mentors else s.mentors }
    if userDelOk && mentorDelOk then
      let mail : Email := ⟨u.email, "Vita Application rejected", ⟨"rejectMentor.hbs", []⟩⟩
      match notifier with
      | some _ => ⟨.ok ⟨200, .successMsg "Mentor rejected successfully!"⟩, s2, [mail]⟩
      | none => ⟨.ok ⟨500, .msg "Email didn\x27t sent"⟩, s2, [mail]⟩
    else ⟨.thrown, s2, []⟩

/-- `deleteUser` (DELETE /user/:id): the same guarded lookup and concurrent
pair of deletions as `rejectMentor`, then the account-deleted email inside
the `try`; only the response texts and the email template differ. -/
def deleteUser (id : Option String) (userDelOk mentorDelOk : Bool)
    (notifier : Option String) (s : Store) : HOut :=
  match (if idOk id then findUser s (id.getD "") else none) with
  | none => ⟨.ok ⟨404, .error "User not found"⟩, s, []⟩
  | some u =>
    let s2 := { s with
      users := if userDelOk then removeFirstBy (fun x => x.id == u.id) s.users else s.users,
      mentors := if mentorDelOk then
        removeFirstBy (fun x => x.id == u.mentor_information) s.mentors else s.mentors }
    if userDelOk && mentorDelOk then
      let mail : Email := ⟨u.email, "User account deleted",
        ⟨"accountDeleted.hbs", [("email", u.email)]⟩⟩
      match notifier with
      | some _ => ⟨.ok ⟨200, .successMsg "Mentor rejected successfully!"⟩, s2, [mail]⟩
      | none => ⟨.ok ⟨500, .msg "Email didn\x27t sent"⟩, s2, [mail]⟩
    else ⟨.thrown, s2, []⟩

/-- Order in which the two racing database operations of `modifyBanner` take
effect at the store.  The handler builds `deletePromise =
BannerModel.deleteMany({})` and `createPromise = BannerModel.create(req.body)`
and awaits `Promise.all` of both, so the code imposes no order between the
delete-all and the insert. -/
inductive BannerOrder where
  | deleteFirst
  | insertFirst
  deriving DecidableEq, Repr

/-- `modifyBanner` (PUT /banner): delete every banner record and insert the
request body, concurrently; if either operation rejects, the `catch` answers
500 with the error message (the other operation still runs and its effect
stands), otherwise 200 with the created banner.  `createOk` and `deleteOk`
are the two operation outcomes, `order` their interleaving at the store. -/
def modifyBanner (payload : Banner) (createOk deleteOk : Bool) (errMsg : String)
    (order : BannerOrder) (s : Store) : Resp × Store :=
  let afterDelete : List Banner → List Banner := fun l => if deleteOk then [] else l
  let afterInsert : List Banner → List Banner := fun l =>
    if createOk then l ++ [payload] else l
  let banners2 :=
    match order with
    | .deleteFirst => afterInsert (afterDelete s.banners)
    | .insertFirst => afterDelete (afterInsert s.banners)
  let s2 := { s with banners := banners2 }
  if createOk && deleteOk then (⟨200, .bannerOk payload⟩, s2)
  else (⟨500, .failMsg errMsg⟩, s2)

/-- A syntactically valid ObjectId (24 hex characters) naming the fixture
mentor record. -/
def mid0 : String := "aaaaaaaaaaaaaaaaaaaaaaaa"

/-- A syntactically valid ObjectId naming the fixture user record. -/
def uid0 : String := "bbbbbbbbbbbbbbbbbbbbbbbb"

/-- A syntactically valid ObjectId matching no record in the fixture store. -/
def vid0 : String := "cccccccccccccccccccccccc"

/-- Fixture mentor record. -/
def m0 : Mentor := ⟨mid0, "mentor@x.com", false, false⟩

/-- Fixture user record, linked to the fixture mentor profile. -/
def u0 : User := ⟨uid0, "user@x.com", mid0⟩

/-- Fixture admin account with a pending, unconsumed, unexpired OTP. -/
def a0 : Admin := ⟨"Ada", "a@x.com", "pw-hash", "img", some ⟨"123456", 1000, false⟩⟩

/-- The fixture admin account after its OTP has been consumed. -/
def a0v : Admin := ⟨"Ada", "a@x.com", "pw-hash", "img", some ⟨"123456", 1000, true⟩⟩

/-- Fixture store holding the fixture records and one old banner. -/
def store0 : Store := ⟨[a0], [u0], [m0], [⟨"old"⟩]⟩

/-- Auxiliary: a search keyed on `k` succeeds after `saveMentor l m2` writes a
record carrying `k`, returning the written record. -/
theorem find_saveMentor (l : List Mentor) (k : String) (m m2 : Mentor)
    (hfind : l.find? (fun x => x.id == k) = some m) (hid2 : m2.id = k) :
    (saveMentor l m2).find? (fun x => x.id == k) = some m2 := by
  induction l with
  | nil => simp at hfind
  | cons x xs ih =>
    simp only [saveMentor, List.map_cons]
    by_cases hx : x.id = k
    · have hbeq : (x.id == m2.id) = true := by simp [hx, hid2]
      simp only [hbeq, if_true]
      exact List.find?_cons_of_pos _ (by simp [hid2])
    · have hbeq : (x.id == m2.id) = false := by
        rw [beq_eq_false_iff_ne, hid2]; exact hx
      have hxf : (x.id == k) = false := beq_eq_false_iff_ne.mpr hx
      rw [List.find?_cons_of_neg _ (by simp [hxf])] at hfind
      simp only [hbeq, if_false]
      rw [List.find?_cons_of_neg _ (by simp [hxf])]
      exact ih hfind

/-- Auxiliary: when the mapped keys are distinct, removing the first record
carrying a key removes the only one, so a later search for that key fails. -/
theorem find_removeFirst_none {α : Type} (f : α → String) (k : String) (l : List α)
    (h : (l.map f).Nodup) :
    (removeFirstBy (fun x => f x == k) l).find? (fun x => f x == k) = none := by
  induction l with
  | nil => rfl
  | cons x xs ih =>
    rw [List.map_cons, List.nodup_cons] at h
    by_cases hx : f x = k
    · have hstep : removeFirstBy (fun y => f y == k) (x :: xs) = xs := by
        simp [removeFirstBy, hx]
      rw [hstep, List.find?_eq_none]
      intro y hy hpy
      have hy2 : f y = f x := by rw [eq_of_beq hpy, hx]
      exact h.1 (hy2 ▸ List.mem_map_of_mem f hy)
    · have hxf : (f x == k) = false := beq_eq_false_iff_ne.mpr hx
      have hstep : removeFirstBy (fun y => f y == k) (x :: xs)
          = x :: removeFirstBy (fun y => f y == k) xs := by
        simp [removeFirstBy, hxf]
      rw [hstep, List.find?_cons_of_neg _ (by simp [hxf])]
      exact ih h.2

/-- Auxiliary: outcome of a resolved `changeTopMentorStatus` call whose email
is delivered. -/
theorem changeTopMentorStatus_found (id : Option String) (e : String) (s : Store)
    (m : Mentor) (hid : idOk id = true) (hm : findMentor s (id.getD "") = some m) :
    changeTopMentorStatus id (some e) s
      = ⟨.ok ⟨200, .successMsg "Mentor Approved!"⟩,
         { s with mentors := saveMentor s.mentors { m with top_mentor := !m.top_mentor } },
         [⟨m.email, "Vita top mentor",
           ⟨"topMentor.hbs", [("top_mentor", toString (!m.top_mentor))]⟩⟩]⟩ := by
  simp [changeTopMentorStatus, hid, hm]

/-- C1: in every moderation workflow (`approveMentor`,
`changeTopMentorStatus`, `rejectMentor`, `deleteUser`), once the domain
mutation succeeds its effect on the store stands whatever the notification
outcome — the store after an email failure equals the store after an email
success and equals the post-mutation state — and the email failure is
answered with the distinct email-delivery-failure status 500. -/
theorem moderation_mutation_committed_despite_email_failure
    (idM idU : Option String) (eid : String) (s : Store) (m : Mentor) (u : User)
    (hidM : idOk idM = true) (hm : findMentor s (idM.getD "") = some m)
    (hidU : idOk idU = true) (hu : findUser s (idU.getD "") = some u) :
    ((approveMentor idM none s).result = .ok ⟨500, .msg "Email didn\x27t sent"⟩
      ∧ (approveMentor idM none s).store = (approveMentor idM (some eid) s).store
      ∧ (approveMentor idM none s).store
          = { s with mentors := saveMentor s.mentors { m with approved := true } })
    ∧ ((changeTopMentorStatus idM none s).result = .ok ⟨500, .msg "Email didn\x27t sent"⟩
      ∧ (changeTopMentorStatus idM none s).store
          = (changeTopMentorStatus idM (some eid) s).store
      ∧ (changeTopMentorStatus idM none s).store
          = { s with mentors := saveMentor s.mentors { m with top_mentor := !m.top_mentor } })
    ∧ ((rejectMentor idU true true none s).result = .ok ⟨500, .msg "Email didn\x27t sent"⟩
      ∧ (rejectMentor idU true true none s).store
          = (rejectMentor idU true true (some eid) s).store
      ∧ (rejectMentor idU true true none s).store
          = { s with users := removeFirstBy (fun x => x.id == u.id) s.users,
                     mentors := removeFirstBy (fun x => x.id == u.mentor_information) s.mentors })
    ∧ ((deleteUser idU true true none s).result = .ok ⟨500, .msg "Email didn\x27t sent"⟩
      ∧ (deleteUser idU true true none s).store
          = (deleteUser idU true true (some eid) s).store
      ∧ (deleteUser idU true true none s).store
          = { s with users := removeFirstBy (fun x => x.id == u.id) s.users,
                     mentors := removeFirstBy (fun x => x.id == u.mentor_information) s.mentors }) := by
  simp [approveMentor, changeTopMentorStatus, rejectMentor, deleteUser, hidM, hm, hidU, hu]

/-- C1 witness: the fixture mentor approval with a failing email transport
answers 500. -/
theorem moderation_mutation_committed_despite_email_failure_witness :
    (approveMentor (some mid0) none store0).result
      = .ok ⟨500, .msg "Email didn\x27t sent"⟩ :=
  (moderation_mutation_committed_despite_email_failure (some mid0) (some uid0) "mail-1"
    store0 m0 u0 (by decide) (by decide) (by decide) (by decide)).1.1

/-- C2: when the account exists and the OTP Engine accepts the candidate,
`adminVerifyOtp` answers 200 and sets the http-only `adminToken` cookie with
a time-to-live of exactly 86400 seconds (86400000 milliseconds), and the
response body carries the serialized profile — an `AdminProfile`, a shape
with no field for the password hash or the OTP state. -/
theorem verifyOtp_success_sets_day_cookie_and_public_profile
    (email otp : String) (now : Nat) (s : Store) (a a2 : Admin)
    (hf : findAdmin s email = some a)
    (hv : verifyOTP a otp now = (true, a2)) :
    (adminVerifyOtp email otp now s).result
        = .ok ⟨200, .verified "OTP verified" (adminToJSON a2)⟩
      ∧ (adminVerifyOtp email otp now s).cookie
        = some ⟨"adminToken", issueToken a2, true, 86400 * 1000⟩ := by
  simp [adminVerifyOtp, hf, hv]

/-- C2 witness: the fixture admin presenting its pending OTP gets the 200
response carrying its public profile. -/
theorem verifyOtp_success_sets_day_cookie_and_public_profile_witness :
    (adminVerifyOtp "a@x.com" "123456" 0 store0).result
      = .ok ⟨200, .verified "OTP verified" (adminToJSON a0v)⟩ :=
  (verifyOtp_success_sets_day_cookie_and_public_profile "a@x.com" "123456" 0 store0 a0 a0v
    (by decide) (by decide)).1

/-- C3: a login with an email matching no account and a login with a wrong
password for an existing account produce the same observable outcome — the
identical 401 response with the identical error body, an unchanged store and
no email attempted — so the two failure causes are indistinguishable. -/
theorem login_failures_indistinguishable
    (s : Store) (e1 p1 e2 p2 fresh : String) (now : Nat) (notifier : Option String)
    (a : Admin)
    (h1 : findAdmin s e1 = none)
    (h2 : findAdmin s e2 = some a)
    (h3 : comparePassword a p2 = false) :
    adminLogin e1 p1 fresh now notifier s = adminLogin e2 p2 fresh now notifier s
      ∧ adminLogin e1 p1 fresh now notifier s
        = ⟨.ok ⟨401, .error "Invalid email or password"⟩, s, []⟩ := by
  simp [adminLogin, h1, h2, h3]

/-- C3 witness: an unknown email and a wrong password against the fixture
store answer identically. -/
theorem login_failures_indistinguishable_witness :
    adminLogin "nobody@x.com" "pw" "999999" 0 (some "mail-2") store0
      = adminLogin "a@x.com" "wrong" "999999" 0 (some "mail-2") store0 :=
  (login_failures_indistinguishable store0 "nobody@x.com" "pw" "a@x.com" "wrong" "999999" 0
    (some "mail-2") a0 (by decide) (by decide) (by decide)).1

/-- C4: `adminAuth` never fails — every call answers 200 and leaves the store
unchanged — and with no principal attached the body reports
`isLoggedIn: false` rather than an error. -/
theorem whoAmI_always_200_no_state_change
    (principal : Option PublicUser) (cookies : Cookies) (s : Store) :
    ((adminAuth principal cookies s).1.status = 200
      ∧ (adminAuth principal cookies s).2 = s)
    ∧ (adminAuth none cookies s).1
      = ⟨200, .auth false "User is not logged in." ⟨"", ""⟩ none⟩ := by
  cases principal <;> simp [adminAuth]

/-- C5: in each moderation handler taking an external identifier, an absent
or syntactically invalid id never reaches the store lookup (the guard
short-circuits it) and is answered exactly like a syntactically valid id
matching no record: the endpoint's not-found response, with the store
unchanged and no email attempted. -/
theorem invalid_id_answered_as_not_found
    (id : Option String) (vM vU : String) (notifier : Option String)
    (uOk mOk : Bool) (s : Store)
    (hbad : idOk id = false)
    (hvM : idOk (some vM) = true) (hnoM : findMentor s vM = none)
    (hvU : idOk (some vU) = true) (hnoU : findUser s vU = none) :
    (approveMentor id notifier s = ⟨.ok ⟨401, .error "Mentor Not Found"⟩, s, []⟩
      ∧ approveMentor (some vM) notifier s = approveMentor id notifier s)
    ∧ (changeTopMentorStatus id notifier s = ⟨.ok ⟨401, .error "Mentor Not Found"⟩, s, []⟩
      ∧ changeTopMentorStatus (some vM) notifier s = changeTopMentorStatus id notifier s)
    ∧ (rejectMentor id uOk mOk notifier s = ⟨.ok ⟨404, .msg "User didn\x27t found!"⟩, s, []⟩
      ∧ rejectMentor (some vU) uOk mOk notifier s = rejectMentor id uOk mOk notifier s)
    ∧ (deleteUser id uOk mOk notifier s = ⟨.ok ⟨404, .error "User not found"⟩, s, []⟩
      ∧ deleteUser (some vU) uOk mOk notifier s = deleteUser id uOk mOk notifier s) := by
  simp [approveMentor, changeTopMentorStatus, rejectMentor, deleteUser,
    hbad, hvM, hnoM, hvU, hnoU]

/-- C5 witness: an absent id on `approveMentor` against the fixture store is
answered with the not-found response and no effect. -/
theorem invalid_id_answered_as_not_found_witness :
    approveMentor none (some "mail-3") store0
      = ⟨.ok ⟨401, .error "Mentor Not Found"⟩, store0, []⟩ :=
  (invalid_id_answered_as_not_found none vid0 vid0 (some "mail-3") true true store0
    (by decide) (by decide) (by decide) (by decide) (by decide)).1.1

/-- C6 counterexample: `modifyBanner` does not sequence the delete-all before
the insert — it awaits `Promise.all` of the two independently issued
operations — so under the insert-first interleaving, with both operations
succeeding, the call answers 200 yet the store ends with zero banner records
instead of exactly one matching the payload. -/
theorem modifyBanner_success_can_leave_zero_banners :
    (modifyBanner ⟨"new"⟩ true true "" .insertFirst store0).1.status = 200
      ∧ (modifyBanner ⟨"new"⟩ true true "" .insertFirst store0).2.banners = [] := by
  decide

/-- C6 amended: whenever the delete-all takes effect before the insert, a
successful `modifyBanner` call leaves exactly one banner record, matching the
call's payload, and two sequential successful delete-first calls leave
exactly one banner record matching the second payload; the code issues the
two operations concurrently, so the delete-first order is only one of the
possible interleavings. -/
theorem modifyBanner_delete_first_replaces_all
    (b1 b2 : Banner) (e1 e2 : String) (s : Store) :
    (modifyBanner b1 true true e1 .deleteFirst s).1 = ⟨200, .bannerOk b1⟩
      ∧ (modifyBanner b1 true true e1 .deleteFirst s).2.banners = [b1]
      ∧ (modifyBanner b2 true true e2 .deleteFirst
          (modifyBanner b1 true true e1 .deleteFirst s).2).2.banners = [b2] := by
  simp [modifyBanner]

/-- C7: `changeTopMentorStatus` negates the resolved mentor's `top_mentor`
flag, and applying it twice — both calls succeeding — returns the flag to its
original value. -/
theorem changeTopMentorStatus_involutive
    (id : Option String) (e1 e2 : String) (s : Store) (m : Mentor)
    (hid : idOk id = true) (hm : findMentor s (id.getD "") = some m) :
    ((changeTopMentorStatus id (some e1) s).result
        = .ok ⟨200, .successMsg "Mentor Approved!"⟩)
    ∧ (findMentor (changeTopMentorStatus id (some e1) s).store (id.getD "")).map
        Mentor.top_mentor = some (!m.top_mentor)
    ∧ ((changeTopMentorStatus id (some e2)
          (changeTopMentorStatus id (some e1) s).store).result
        = .ok ⟨200, .successMsg "Mentor Approved!"⟩)
    ∧ (findMentor (changeTopMentorStatus id (some e2)
          (changeTopMentorStatus id (some e1) s).store).store (id.getD "")).map
        Mentor.top_mentor = some m.top_mentor := by
  have hm' : s.mentors.find? (fun x => x.id == id.getD "") = some m := hm
  have hbeqm := List.find?_some hm'
  have hk : m.id = id.getD "" := eq_of_beq hbeqm
  have h1 := changeTopMentorStatus_found id e1 s m hid hm
  have hf1 : findMentor (changeTopMentorStatus id (some e1) s).store (id.getD "")
      = some { m with top_mentor := !m.top_mentor } := by
    rw [h1]
    exact find_saveMentor s.mentors (id.getD "") m _ hm hk
  have h2 := changeTopMentorStatus_found id e2
    (changeTopMentorStatus id (some e1) s).store _ hid hf1
  have hf2 : findMentor (changeTopMentorStatus id (some e2)
        (changeTopMentorStatus id (some e1) s).store).store (id.getD "")
      = some { m with top_mentor := !(!m.top_mentor) } := by
    rw [h2]
    exact find_saveMentor _ (id.getD "") _ _ hf1 hk
  refine ⟨by rw [h1], by rw [hf1]; rfl, by rw [h2], ?_⟩
  rw [hf2]
  simp

/-- C7 witness: toggling the fixture mentor's flag twice restores it. -/
theorem changeTopMentorStatus_involutive_witness :
    (findMentor (changeTopMentorStatus (some mid0) (some "m2")
        (changeTopMentorStatus (some mid0) (some "m1") store0).store).store
        ((some mid0).getD "")).map Mentor.top_mentor = some m0.top_mentor :=
  (changeTopMentorStatus_involutive (some mid0) "m1" "m2" store0 m0
    (by decide) (by decide)).2.2.2

/-- C8: for `rejectMentor` and `deleteUser` on a resolvable user id, both
deletions complete before any notification is attempted: when both succeed
the user record and its linked mentor-profile record are absent from the
final store whatever the notification outcome, and when either deletion
fails the handler ends in the escaped rejection with no email attempted. -/
theorem cascade_deletes_complete_before_notification
    (id : Option String) (uOk mOk : Bool) (notifier : Option String)
    (s : Store) (u : User)
    (hid : idOk id = true) (hu : findUser s (id.getD "") = some u)
    (hnU : (s.users.map User.id).Nodup) (hnM : (s.mentors.map Mentor.id).Nodup) :
    (findUser (rejectMentor id true true notifier s).store u.id = none
      ∧ findMentor (rejectMentor id true true notifier s).store u.mentor_information = none)
    ∧ (findUser (deleteUser id true true notifier s).store u.id = none
      ∧ findMentor (deleteUser id true true notifier s).store u.mentor_information = none)
    ∧ ((uOk && mOk) = false →
        (rejectMentor id uOk mOk notifier s).result = .thrown
        ∧ (rejectMentor id uOk mOk notifier s).attempts = []
        ∧ (deleteUser id uOk mOk notifier s).result = .thrown
        ∧ (deleteUser id uOk mOk notifier s).attempts = []) := by
  have hu' : s.users.find? (fun x => x.id == id.getD "") = some u := hu
  have hbequ := List.find?_some hu'
  have hk : u.id = id.getD "" := eq_of_beq hbequ
  have hrej : (rejectMentor id true true notifier s).store
      = { s with users := removeFirstBy (fun x => x.id == u.id) s.users,
                 mentors := removeFirstBy (fun x => x.id == u.mentor_information) s.mentors } := by
    cases notifier <;> simp [rejectMentor, hid, hu]
  have hdel : (deleteUser id true true notifier s).store
      = { s with users := removeFirstBy (fun x => x.id == u.id) s.users,
                 mentors := removeFirstBy (fun x => x.id == u.mentor_information) s.mentors } := by
    cases notifier <;> simp [deleteUser, hid, hu]
  refine ⟨⟨?_, ?_⟩, ⟨?_, ?_⟩, ?_⟩
  · rw [hrej]; exact find_removeFirst_none User.id u.id s.users hnU
  · rw [hrej]; exact find_removeFirst_none Mentor.id u.mentor_information s.mentors hnM
  · rw [hdel]; exact find_removeFirst_none User.id u.id s.users hnU
  · rw [hdel]; exact find_removeFirst_none Mentor.id u.mentor_information s.mentors hnM
  · intro hfail
    cases uOk <;> cases mOk <;>
      simp_all [rejectMentor, deleteUser, hid, hu]

/-- C8 witness: rejecting the fixture user with a failing email transport
still leaves its record absent. -/
theorem cascade_deletes_complete_before_notification_witness :
    findUser (rejectMentor (some uid0) true true none store0).store u0.id = none :=
  (cascade_deletes_complete_before_notification (some uid0) true true none store0 u0
    (by decide) (by decide) (by decide) (by decide)).1.1

/-- C9: `deleteUser` performs exactly the same store mutation as
`rejectMentor` on every store, identifier, pair of deletion outcomes and
notifier outcome; the two handlers also answer with the same status and
email the same recipient, differing only in the response texts and the
notification template. -/
theorem deleteUser_rejectMentor_same_store_effect
    (id : Option String) (uOk mOk : Bool) (notifier : Option String) (s : Store) :
    (deleteUser id uOk mOk notifier s).store = (rejectMentor id uOk mOk notifier s).store
    ∧ (deleteUser id uOk mOk notifier s).result.statusOf
        = (rejectMentor id uOk mOk notifier s).result.statusOf
    ∧ (deleteUser id uOk mOk notifier s).attempts.map Email.recipient
        = (rejectMentor id uOk mOk notifier s).attempts.map Email.recipient := by
  cases hfind : (if idOk id then findUser s (id.getD "") else none) <;>
    cases uOk <;> cases mOk <;> cases notifier <;>
      simp [deleteUser, rejectMentor, hfind, HResult.statusOf]

/-- C10: when persisting the new banner fails while the delete-all succeeds,
`modifyBanner` answers 500 yet the deletion of every pre-existing banner
record still takes effect — under either interleaving of the two racing
operations the store is left with zero banner records. -/
theorem modifyBanner_create_failure_still_deletes
    (payload : Banner) (errMsg : String) (order : BannerOrder) (s : Store) :
    (modifyBanner payload false true errMsg order s).1.status = 500
      ∧ (modifyBanner payload false true errMsg order s).2.banners = [] := by
  cases order <;> simp [modifyBanner]

end Vita
